import Mathlib

/-!
Verification of the live navigation core of the Mini-project repository.

The source is a browser navigation app (single monolithic class). We give a
shallow embedding of its geometry kernel and navigation state machine:

* JavaScript numbers are modelled as real numbers `ℝ`;
* geographic points follow the source conventions: a position sample carries
  `lat`/`lng` fields, while route geometry points and step maneuver locations
  are GeoJSON `[lng, lat]` pairs, modelled as `ℝ × ℝ` with `.1 = lng`,
  `.2 = lat`;
* the mutable fields of the app object that the navigation pipeline reads or
  writes are collected in the `NavState` structure; methods become functions
  `NavState → NavState × List Effect`, where `Effect` records the
  side-effects relevant to the specification (speech, arrival, scheduling and
  invoking recalculation);
* the `setTimeout`-based recalculation debounce and the awaited route fetch
  are modelled by an explicit event system (`NavEvent`, `stepWorld`): the
  JavaScript event loop runs each handler atomically up to its first `await`,
  so timer expiry, fetch resolution/rejection, position callbacks and the
  stop command are the atomic events.
-/

namespace NavCore

open Real

noncomputable section

/-- JavaScript `Math.atan2 (y, x)`, modelled on real numbers with the usual
quadrant conventions (`atan2 0 0 = 0`, as in JS). Only the `0 < x` branch is
exercised by the haversine formula below. -/
def atan2 (y x : ℝ) : ℝ :=
  if 0 < x then Real.arctan (y / x)
  else if x < 0 then
    (if 0 ≤ y then Real.arctan (y / x) + π else Real.arctan (y / x) - π)
  else if 0 < y then π / 2
  else if y < 0 then -(π / 2)
  else 0

/-- Source `calculateDistance(lat1, lon1, lat2, lon2)`: haversine great-circle
distance in meters on a sphere of radius 6371000 m. -/
def calculateDistance (lat1 lon1 lat2 lon2 : ℝ) : ℝ :=
  let R : ℝ := 6371000
  let phi1 := lat1 * π / 180
  let phi2 := lat2 * π / 180
  let dphi := (lat2 - lat1) * π / 180
  let dlam := (lon2 - lon1) * π / 180
  let a := Real.sin (dphi / 2) * Real.sin (dphi / 2) +
    Real.cos phi1 * Real.cos phi2 * Real.sin (dlam / 2) * Real.sin (dlam / 2)
  let c := 2 * atan2 (Real.sqrt a) (Real.sqrt (1 - a))
  R * c

/-- Source `distanceToLineSegment(px, py, x1, y1, x2, y2)`: planar projection
of the point onto the segment (coordinates are degrees, `x` = latitude,
`y` = longitude as the source calls it), parameter clamped to the segment,
followed by a haversine distance to the resulting foot point. A zero-length
segment is handled by the `lenSq = 0` guard, which leaves the parameter at
`-1` so that the first endpoint is used. -/
def distanceToLineSegment (px py x1 y1 x2 y2 : ℝ) : ℝ :=
  let A := px - x1
  let B := py - y1
  let C := x2 - x1
  let D := y2 - y1
  let dot := A * C + B * D
  let lenSq := C * C + D * D
  let param := if lenSq = 0 then -1 else dot / lenSq
  let xx := if param < 0 then x1 else if 1 < param then x2 else x1 + param * C
  let yy := if param < 0 then y1 else if 1 < param then y2 else y1 + param * D
  calculateDistance px py xx yy

/-- Meters per degree of longitude along the equator for the source haversine:
`6371000 * π / 180`. All concrete scenarios in this file place their points on
the equator, where the source distance function evaluates exactly to
`mPerDeg * |Δlng|`. -/
def mPerDeg : ℝ := 6371000 * (π / 180)

lemma mPerDeg_lb : 100000 < mPerDeg := by
  have h := Real.pi_gt_three
  unfold mPerDeg
  nlinarith

lemma mPerDeg_ub : mPerDeg < 120000 := by
  have h := Real.pi_lt_d2
  unfold mPerDeg
  nlinarith

lemma mPerDeg_pos : 0 < mPerDeg := lt_trans (by norm_num) mPerDeg_lb

/-- Key evaluation lemma for `atan2` on the haversine intermediate values:
for `|x| < π / 2` the arc recovered from `sin x * sin x` is `|x|`. -/
lemma atan2_sin_cos {x : ℝ} (h1 : -(π / 2) < x) (h2 : x < π / 2) :
    atan2 (Real.sqrt (Real.sin x * Real.sin x))
      (Real.sqrt (1 - Real.sin x * Real.sin x)) = |x| := by
  have hc : 0 < Real.cos x := Real.cos_pos_of_mem_Ioo ⟨h1, h2⟩
  have hs1 : Real.sin x * Real.sin x = Real.sin x ^ 2 := by ring
  have hc1 : 1 - Real.sin x ^ 2 = Real.cos x ^ 2 := by
    have h := Real.sin_sq_add_cos_sq x
    linarith
  have e1 : Real.sqrt (Real.sin x * Real.sin x) = |Real.sin x| := by
    rw [hs1, Real.sqrt_sq_eq_abs]
  have e2 : Real.sqrt (1 - Real.sin x * Real.sin x) = Real.cos x := by
    rw [hs1, hc1, Real.sqrt_sq_eq_abs, abs_of_pos hc]
  rw [e1, e2]
  unfold atan2
  rw [if_pos hc]
  have e3 : |Real.sin x| / Real.cos x = |Real.tan x| := by
    rw [Real.tan_eq_sin_div_cos, abs_div, abs_of_pos hc]
  rw [e3]
  rcases le_or_lt 0 x with hx0 | hx0
  · have hpi : x ≤ π := le_trans (le_of_lt h2) (by linarith [Real.pi_pos])
    have hsn : 0 ≤ Real.sin x := Real.sin_nonneg_of_nonneg_of_le_pi hx0 hpi
    have htn : 0 ≤ Real.tan x := by
      rw [Real.tan_eq_sin_div_cos]
      exact div_nonneg hsn (le_of_lt hc)
    rw [abs_of_nonneg htn, Real.arctan_tan h1 h2, abs_of_nonneg hx0]
  · have hmpi : -π < x := lt_trans (by linarith [Real.pi_pos]) h1
    have hsn : Real.sin x < 0 := Real.sin_neg_of_neg_of_neg_pi_lt hx0 hmpi
    have htn : Real.tan x < 0 := by
      rw [Real.tan_eq_sin_div_cos]
      exact div_neg_of_neg_of_pos hsn hc
    have e4 : |Real.tan x| = Real.tan (-x) := by
      rw [Real.tan_neg, abs_of_neg htn]
    rw [e4, Real.arctan_tan (by linarith) (by linarith), abs_of_neg hx0]

/-- On the equator the source haversine evaluates exactly:
`calculateDistance 0 a 0 b = mPerDeg * |b - a|` whenever `|b - a| < 180`. -/
lemma calculateDistance_equator (a b : ℝ) (h : |b - a| < 180) :
    calculateDistance 0 a 0 b = mPerDeg * |b - a| := by
  have hx : ((0 : ℝ) - 0) * π / 180 / 2 = 0 := by ring
  have hphi : (0 : ℝ) * π / 180 = 0 := by ring
  simp only [calculateDistance]
  rw [hx, hphi, Real.sin_zero, Real.cos_zero]
  have hsimp : (0 : ℝ) * 0 + 1 * 1 *
      Real.sin ((b - a) * π / 180 / 2) * Real.sin ((b - a) * π / 180 / 2) =
      Real.sin ((b - a) * π / 180 / 2) * Real.sin ((b - a) * π / 180 / 2) := by
    ring
  rw [hsimp]
  have habs : |(b - a) * π / 180 / 2| = |b - a| * (π / 360) := by
    rw [show (b - a) * π / 180 / 2 = (b - a) * (π / 360) by ring, abs_mul,
      abs_of_pos (by positivity : (0 : ℝ) < π / 360)]
  have hb2 : |(b - a) * π / 180 / 2| < π / 2 := by
    rw [habs]
    have := mul_lt_mul_of_pos_right h (show (0 : ℝ) < π / 360 by positivity)
    linarith
  have hb1 : -(π / 2) < (b - a) * π / 180 / 2 := by
    have := abs_lt.mp hb2
    linarith [this.1]
  have hb3 : (b - a) * π / 180 / 2 < π / 2 := (abs_lt.mp hb2).2
  rw [atan2_sin_cos hb1 hb3, habs]
  unfold mPerDeg
  ring

lemma calculateDistance_self (a b : ℝ) : calculateDistance a b a b = 0 := by
  have hx : (a - a) * π / 180 / 2 = 0 := by ring
  have hy : (b - b) * π / 180 / 2 = 0 := by ring
  simp only [calculateDistance]
  rw [hx, hy, Real.sin_zero]
  have h0 : (0 : ℝ) * 0 + Real.cos (a * π / 180) * Real.cos (a * π / 180) * 0 * 0
      = 0 := by ring
  rw [h0, Real.sqrt_zero]
  have h1 : (1 : ℝ) - 0 = 1 := by ring
  rw [h1, Real.sqrt_one]
  unfold atan2
  rw [if_pos (by norm_num : (0 : ℝ) < 1)]
  simp [Real.arctan_zero]

/-- Degenerate segment: when both endpoints coincide, the source guard
`lenSq = 0` routes the computation to the first endpoint, so the result is
the great-circle distance from the point to that endpoint. -/
lemma distanceToLineSegment_degenerate (px py x1 y1 : ℝ) :
    distanceToLineSegment px py x1 y1 x1 y1 = calculateDistance px py x1 y1 := by
  simp only [distanceToLineSegment]
  rw [if_pos (by ring : (x1 - x1) * (x1 - x1) + (y1 - y1) * (y1 - y1) = 0)]
  rw [if_pos (by norm_num : (-1 : ℝ) < 0), if_pos (by norm_num : (-1 : ℝ) < 0)]

/-- Source `calculateDistanceToRoute` loop body, one entry per consecutive
pair of geometry points: `distanceToLineSegment(pos.lat, pos.lng, p1[1],
p1[0], p2[1], p2[0])`. Geometry points are `[lng, lat]`, the position pair is
`(lat, lng)`. -/
def segmentDistances (pos : ℝ × ℝ) : List (ℝ × ℝ) → List ℝ
  | p1 :: p2 :: rest =>
    distanceToLineSegment pos.1 pos.2 p1.2 p1.1 p2.2 p2.1 ::
      segmentDistances pos (p2 :: rest)
  | _ => []

/-- Source `calculateDistanceToRoute()`: minimum of the per-segment distances
(the loop accumulates `minDistance = Math.min(...)` starting from `Infinity`).
An empty geometry returns 0 as in the source; the JS `Infinity` result for a
single-point geometry (no segment) has no real counterpart and is modelled as
0 here — every route in the claims has at least two geometry points, where
the two definitions agree. -/
def calculateDistanceToRoute (pos : ℝ × ℝ) (geom : List (ℝ × ℝ)) : ℝ :=
  match segmentDistances pos geom with
  | [] => 0
  | d :: ds => ds.foldl min d

/-- Source `calculateDistanceAlongRoute` first loop: find the index of the
geometry vertex closest to the position (strict improvement, so the first
minimizing index wins, exactly as the `<` comparison in the source). The
accumulator holds `(closestIndex, minDistance)`. -/
def closestAux (pos : ℝ × ℝ) : List (ℝ × ℝ) → ℕ → ℕ × ℝ → ℕ × ℝ
  | [], _, acc => acc
  | p :: rest, i, acc =>
    let d := calculateDistance pos.1 pos.2 p.2 p.1
    if d < acc.2 then closestAux pos rest (i + 1) (i, d)
    else closestAux pos rest (i + 1) acc

/-- The `(closestIndex, minDistance)` pair after the first loop of
`calculateDistanceAlongRoute`. The source seeds `minDistance = Infinity`, so
on a non-empty geometry the first iteration always installs vertex 0; we seed
with vertex 0 directly, which is extensionally the same. An empty geometry
leaves the JS initial pair `(0, Infinity)`; its distance component is never
used there (the second loop immediately returns 0), and we model it as
`(0, 0)`. -/
def closestVertexPair (pos : ℝ × ℝ) : List (ℝ × ℝ) → ℕ × ℝ
  | [] => (0, 0)
  | p :: rest => closestAux pos rest 1 (0, calculateDistance pos.1 pos.2 p.2 p.1)

/-- Length of the polyline accumulated over its first `n` segments
(the source sums `calculateDistance(p[i][1], p[i][0], p[i+1][1], p[i+1][0])`
for `i < closestIndex`). -/
def polylineLengthUpTo : List (ℝ × ℝ) → ℕ → ℝ
  | _, 0 => 0
  | p1 :: p2 :: rest, Nat.succ n =>
    calculateDistance p1.2 p1.1 p2.2 p2.1 + polylineLengthUpTo (p2 :: rest) n
  | _, Nat.succ _ => 0

/-- Source `calculateDistanceAlongRoute()`: polyline length up to the closest
geometry vertex ("Simplified: find closest point on route and sum distance to
that point", as the source comment says). -/
def calculateDistanceAlongRoute (pos : ℝ × ℝ) (geom : List (ℝ × ℝ)) : ℝ :=
  polylineLengthUpTo geom (closestVertexPair pos geom).1

/-- Side effects of the navigation pipeline that the specification talks
about. `speak` records a voice/UI announcement (for the turn announcement the
source prefixes the distance text, e.g. `In 150 m, ...`; we record the
instruction being announced). `arrive` records that `arriveAtDestination` ran
(arrival toast plus the 3 s delayed stop). `recalcScheduled` records that
`handleOffRoute` armed the 3 s debounce timer; `recalcInvoked` records that
the timer body started the external route request; `recalcApplied` records
that a resolved route request overwrote the route data. -/
inductive Effect where
  | speak (text : String)
  | arrive
  | recalcScheduled
  | recalcInvoked
  | recalcApplied
  deriving DecidableEq

/-- A raw geolocation sample as consumed by `handleLocationUpdate`
(`position.coords`); the display-only fields (speed, heading, timestamp) are
not read by the navigation pipeline and are omitted. -/
structure PositionSample where
  lat : ℝ
  lng : ℝ
  accuracy : ℝ
  deriving DecidableEq

/-- One entry of `this.steps` as built by `calculateRoute` /
`startNavigation`: instruction text, step distance/duration, street name,
prefix-sum offset from route start, and the maneuver location (a GeoJSON
`[lng, lat]` pair). The `maneuver` object itself is only used to pick a UI
icon and is omitted. -/
structure Step where
  instruction : String
  distance : ℝ
  duration : ℝ
  name : String
  distanceFromStart : ℝ
  location : ℝ × ℝ

/-- The mutable fields of the app object read or written by the navigation
pipeline. `recalculationTimeout` models `this.recalculationTimeout !== null`
(the handle is set when the debounce timer is armed and cleared by
`stopNavigation` or at the end of the timer callback). -/
structure NavState where
  isNavigating : Bool
  steps : List Step
  currentStepIndex : ℕ
  totalDistance : ℝ
  totalDuration : ℝ
  remainingDistance : ℝ
  routeGeometry : List (ℝ × ℝ)
  lastSpokenInstruction : Option String
  offRouteThreshold : ℝ
  recalculationTimeout : Bool
  currentPosition : Option PositionSample

/-- Source `arriveAtDestination()`: speaks the arrival message, shows the
arrival toast and schedules `stopNavigation` 3 s later. No field of the state
is written synchronously; the `arrive` effect records the transition. -/
def arriveAtDestination (s : NavState) : NavState × List Effect :=
  (s, [Effect.speak "You have arrived at your destination", Effect.arrive])

/-- Source `advanceToNextStep()`: unconditionally increments the step index;
if the new index is past the last step, arrival is declared, otherwise the
next instruction is spoken immediately and recorded as the last spoken
instruction. -/
def advanceToNextStep (s : NavState) : NavState × List Effect :=
  let s2 := { s with currentStepIndex := s.currentStepIndex + 1 }
  if s2.steps.length ≤ s2.currentStepIndex then arriveAtDestination s2
  else
    match s2.steps.get? s2.currentStepIndex with
    | some nextStep =>
      ({ s2 with lastSpokenInstruction := some nextStep.instruction },
        [Effect.speak nextStep.instruction])
    | none => (s2, [])

/-- Source `handleOffRoute()`: no-op while a recalculation timeout handle
exists, otherwise speaks the recalculation prompt and arms the 3 s debounce
timer. -/
def handleOffRoute (s : NavState) : NavState × List Effect :=
  if s.recalculationTimeout then (s, [])
  else ({ s with recalculationTimeout := true },
    [Effect.speak "Recalculating route", Effect.recalcScheduled])

/-- Source `updateNavigationUI(distance, step)`, reduced to its state-bearing
part: when the distance to the maneuver is under 200 m and the instruction
differs from the last spoken one, the instruction is spoken and recorded.
All other statements of the source function only write DOM elements. -/
def updateNavigationUI (s : NavState) (distance : ℝ) (step : Step) :
    NavState × List Effect :=
  if distance < 200 ∧ s.lastSpokenInstruction ≠ some step.instruction then
    ({ s with lastSpokenInstruction := some step.instruction },
      [Effect.speak step.instruction])
  else (s, [])

/-- Source `updateNavigation()`: guard on `isNavigating`/`currentPosition`;
arrival when the current step index has no step; otherwise, in source order:
recompute `remainingDistance`, run the UI update (which may announce), advance
when within 20 m of the maneuver location, then run the off-route check on the
resulting state and arm the recalculation debounce when beyond the threshold.
The trailing progress-bar statement only writes the DOM. -/
def updateNavigation (s : NavState) : NavState × List Effect :=
  match s.isNavigating, s.currentPosition with
  | true, some pos =>
    match s.steps.get? s.currentStepIndex with
    | none => arriveAtDestination s
    | some currentStep =>
      let distanceToStep := calculateDistance pos.lat pos.lng
        currentStep.location.2 currentStep.location.1
      let s1 := { s with remainingDistance :=
        currentStep.distanceFromStart + currentStep.distance -
          calculateDistanceAlongRoute (pos.lat, pos.lng) s.routeGeometry }
      let r1 := updateNavigationUI s1 distanceToStep currentStep
      let r2 := if distanceToStep < 20 then advanceToNextStep r1.1 else (r1.1, [])
      let distanceToRoute :=
        calculateDistanceToRoute (pos.lat, pos.lng) r2.1.routeGeometry
      let r3 := if r2.1.offRouteThreshold < distanceToRoute
        then handleOffRoute r2.1 else (r2.1, [])
      (r3.1, r1.2 ++ r2.2 ++ r3.2)
  | _, _ => (s, [])

/-- Source `handleLocationUpdate(position)`: the sample is stored as
`currentPosition` unconditionally (there is no accuracy or displacement
filter in the source), then `updateNavigation` runs if navigating. The
remaining statements write the GPS/speed display and the user marker. -/
def handleLocationUpdate (s : NavState) (sample : PositionSample) :
    NavState × List Effect :=
  let s2 := { s with currentPosition := some sample }
  if s2.isNavigating then updateNavigation s2 else (s2, [])

/-- Source `stopNavigation()`, state-bearing part: clears the navigation
flag, resets the step index and last spoken instruction, and clears the
recalculation timeout handle (`clearTimeout`). The many remaining statements
tear down UI elements and map layers. -/
def stopNavigation (s : NavState) : NavState :=
  { s with
    isNavigating := false,
    currentStepIndex := 0,
    lastSpokenInstruction := none,
    recalculationTimeout := false }

/-- One step of a provider (OSRM) route response as consumed by
`calculateRoute`; `instruction` stands for `formatInstruction(step)`, a pure
string formatter over the maneuver fields, and `name` for
`step.name || "Unnamed road"`. -/
structure ProviderStep where
  instruction : String
  distance : ℝ
  duration : ℝ
  name : String
  location : ℝ × ℝ

/-- A provider route response (`response.data.routes[0]` of `calculateRoute`). -/
structure RouteData where
  distance : ℝ
  duration : ℝ
  geometry : List (ℝ × ℝ)
  steps : List ProviderStep

/-- The step-extraction loop of `calculateRoute` (and `startNavigation`):
prefix-sums the step distances into `distanceFromStart`. -/
def extractSteps : List ProviderStep → ℝ → List Step
  | [], _ => []
  | p :: rest, offset =>
    { instruction := p.instruction, distance := p.distance,
      duration := p.duration, name := p.name, distanceFromStart := offset,
      location := p.location } :: extractSteps rest (offset + p.distance)

/-- The state mutations of a successful `calculateRoute(...)` call: route
totals, remaining distance, geometry and steps are all overwritten with the
fetched route. Drawing and map fitting are display-only. -/
def applyRouteData (s : NavState) (r : RouteData) : NavState :=
  { s with
    totalDistance := r.distance,
    totalDuration := r.duration,
    remainingDistance := r.distance,
    routeGeometry := r.geometry,
    steps := extractSteps r.steps 0 }

/-- The atomic events of the JavaScript event loop that drive the navigation
session: a geolocation callback, expiry of the 3 s recalculation debounce
timer (the timer body runs synchronously up to `await calculateRoute`),
resolution or rejection of that awaited route request, and the stop command. -/
inductive NavEvent where
  | position (sample : PositionSample)
  | debounceElapsed
  | recalcResolved (r : RouteData)
  | recalcFailed
  | stop

/-- A navigation session together with its scheduled asynchronous work:
`timerPending` is true while the debounce timer is armed and has neither
fired nor been cleared; `fetchInFlight` is true while the timer body is
suspended on `await calculateRoute`. -/
structure World where
  s : NavState
  timerPending : Bool
  fetchInFlight : Bool

/-- The event-loop semantics of the source. A position callback runs
`handleLocationUpdate`; if it armed the debounce (`recalcScheduled` effect),
the timer becomes pending. Timer expiry starts the route fetch (the timer
body reads the destination and calls `calculateRoute`). A resolved fetch
applies the route data, resets the step index and spoken instruction, and
clears the timeout handle — unconditionally, there is no check that the
session is still alive. A rejected fetch only clears the handle. `stop` runs
`stopNavigation`, whose `clearTimeout` cancels a pending timer but cannot
affect a fetch that is already in flight. -/
def stepWorld (w : World) : NavEvent → World × List Effect
  | NavEvent.position sample =>
    let r := handleLocationUpdate w.s sample
    ({ w with
      s := r.1,
      timerPending := w.timerPending || r.2.contains Effect.recalcScheduled },
      r.2)
  | NavEvent.debounceElapsed =>
    if w.timerPending then
      ({ w with timerPending := false, fetchInFlight := true },
        [Effect.recalcInvoked])
    else (w, [])
  | NavEvent.recalcResolved r =>
    if w.fetchInFlight then
      let s2 := applyRouteData w.s r
      ({ w with
        s := { s2 with
          currentStepIndex := 0,
          lastSpokenInstruction := none,
          recalculationTimeout := false },
        fetchInFlight := false }, [Effect.recalcApplied])
    else (w, [])
  | NavEvent.recalcFailed =>
    if w.fetchInFlight then
      ({ w with
        s := { w.s with recalculationTimeout := false },
        fetchInFlight := false }, [])
    else (w, [])
  | NavEvent.stop =>
    ({ w with s := stopNavigation w.s, timerPending := false }, [])

/-- Run a list of events, accumulating effects in order. -/
def runWorld (w : World) : List NavEvent → World × List Effect
  | [] => (w, [])
  | e :: es =>
    let r := stepWorld w e
    let rest := runWorld r.1 es
    (rest.1, r.2 ++ rest.2)

/-! ### Structural lemmas about the pipeline functions -/

lemma updateNavigationUI_cases (s : NavState) (d : ℝ) (st : Step) :
    updateNavigationUI s d st = (s, []) ∨
    updateNavigationUI s d st =
      ({ s with lastSpokenInstruction := some st.instruction },
        [Effect.speak st.instruction]) := by
  unfold updateNavigationUI
  split
  · right; rfl
  · left; rfl

lemma updateNavigationUI_same (s : NavState) (d : ℝ) (st : Step)
    (h : s.lastSpokenInstruction = some st.instruction) :
    updateNavigationUI s d st = (s, []) := by
  unfold updateNavigationUI
  rw [if_neg]
  intro hcon
  exact hcon.2 h

lemma updateNavigationUI_far (s : NavState) (d : ℝ) (st : Step)
    (h : ¬ d < 200) : updateNavigationUI s d st = (s, []) := by
  unfold updateNavigationUI
  rw [if_neg]
  intro hcon
  exact h hcon.1

lemma advanceToNextStep_index (s : NavState) :
    (advanceToNextStep s).1.currentStepIndex = s.currentStepIndex + 1 := by
  unfold advanceToNextStep arriveAtDestination
  simp only []
  split
  · rfl
  · split <;> rfl

lemma advanceToNextStep_preserves (s : NavState) :
    (advanceToNextStep s).1.isNavigating = s.isNavigating ∧
    (advanceToNextStep s).1.steps = s.steps ∧
    (advanceToNextStep s).1.routeGeometry = s.routeGeometry ∧
    (advanceToNextStep s).1.offRouteThreshold = s.offRouteThreshold ∧
    (advanceToNextStep s).1.recalculationTimeout = s.recalculationTimeout ∧
    (advanceToNextStep s).1.currentPosition = s.currentPosition ∧
    (advanceToNextStep s).1.remainingDistance = s.remainingDistance := by
  unfold advanceToNextStep arriveAtDestination
  simp only []
  split
  · exact ⟨rfl, rfl, rfl, rfl, rfl, rfl, rfl⟩
  · split <;> exact ⟨rfl, rfl, rfl, rfl, rfl, rfl, rfl⟩

lemma advanceToNextStep_speaks (s : NavState) :
    ((advanceToNextStep s).2 ≠ [] ∧
      Effect.arrive ∉ (advanceToNextStep s).2) ∨
    (advanceToNextStep s).2 =
      [Effect.speak "You have arrived at your destination", Effect.arrive] := by
  unfold advanceToNextStep arriveAtDestination
  simp only []
  split
  · right; rfl
  · rename_i hlen
    split
    · left
      exact ⟨by simp, by simp⟩
    · rename_i hnone
      exact absurd (List.get?_eq_none.mp hnone) hlen

lemma handleOffRoute_cases (s : NavState) :
    (s.recalculationTimeout = true ∧ handleOffRoute s = (s, [])) ∨
    (s.recalculationTimeout = false ∧ handleOffRoute s =
      ({ s with recalculationTimeout := true },
        [Effect.speak "Recalculating route", Effect.recalcScheduled])) := by
  unfold handleOffRoute
  rcases h : s.recalculationTimeout with _ | _
  · right
    exact ⟨rfl, by rw [if_neg (by simp [h])]⟩
  · left
    exact ⟨rfl, by rw [if_pos (by simp [h])]⟩

lemma handleOffRoute_preserves (s : NavState) :
    (handleOffRoute s).1.isNavigating = s.isNavigating ∧
    (handleOffRoute s).1.steps = s.steps ∧
    (handleOffRoute s).1.currentStepIndex = s.currentStepIndex ∧
    (handleOffRoute s).1.routeGeometry = s.routeGeometry ∧
    (handleOffRoute s).1.currentPosition = s.currentPosition ∧
    (handleOffRoute s).1.remainingDistance = s.remainingDistance ∧
    (handleOffRoute s).1.lastSpokenInstruction = s.lastSpokenInstruction := by
  unfold handleOffRoute
  split <;> exact ⟨rfl, rfl, rfl, rfl, rfl, rfl, rfl⟩

lemma updateNavigation_guard_off (s : NavState) (h : s.isNavigating = false) :
    updateNavigation s = (s, []) := by
  unfold updateNavigation
  rcases hp : s.currentPosition with _ | p <;> rw [h]

/-! ### Concrete distance evaluations (all points on the equator) -/

lemma cd_equator_eval (a b c : ℝ) (h1 : b - a = c) (h2 : 0 ≤ c) (h3 : c < 180) :
    calculateDistance 0 a 0 b = mPerDeg * c := by
  rw [calculateDistance_equator a b (by rw [h1, abs_of_nonneg h2]; exact h3),
    h1, abs_of_nonneg h2]

lemma cd_equator_eval_neg (a b c : ℝ) (h1 : a - b = c) (h2 : 0 ≤ c)
    (h3 : c < 180) : calculateDistance 0 a 0 b = mPerDeg * c := by
  have habs : |b - a| = c := by
    rw [abs_sub_comm, h1, abs_of_nonneg h2]
  rw [calculateDistance_equator a b (by rw [habs]; exact h3), habs]

lemma cd_O_A : calculateDistance 0 0 0 0.0001 = mPerDeg * 0.0001 :=
  cd_equator_eval 0 0.0001 0.0001 (by norm_num) (by norm_num) (by norm_num)

lemma cd_O_one : calculateDistance 0 0 0 1 = mPerDeg * 1 :=
  cd_equator_eval 0 1 1 (by norm_num) (by norm_num) (by norm_num)

lemma cd_O_two : calculateDistance 0 0 0 2 = mPerDeg * 2 :=
  cd_equator_eval 0 2 2 (by norm_num) (by norm_num) (by norm_num)

lemma cd_O_five : calculateDistance 0 0 0 5 = mPerDeg * 5 :=
  cd_equator_eval 0 5 5 (by norm_num) (by norm_num) (by norm_num)

lemma cd_off_five : calculateDistance 0 0.001 0 5 = mPerDeg * 4.999 :=
  cd_equator_eval 0.001 5 4.999 (by norm_num) (by norm_num) (by norm_num)

lemma cd_off_O : calculateDistance 0 0.001 0 0 = mPerDeg * 0.001 :=
  cd_equator_eval_neg 0.001 0 0.001 (by norm_num) (by norm_num) (by norm_num)

lemma cd_off_A : calculateDistance 0 0.001 0 0.0001 = mPerDeg * 0.0009 :=
  cd_equator_eval_neg 0.001 0.0001 0.0009 (by norm_num) (by norm_num)
    (by norm_num)

lemma cd_mid_O : calculateDistance 0 0.0006 0 0 = mPerDeg * 0.0006 :=
  cd_equator_eval_neg 0.0006 0 0.0006 (by norm_num) (by norm_num) (by norm_num)

lemma cd_mid_B : calculateDistance 0 0.0006 0 0.001 = mPerDeg * 0.0004 :=
  cd_equator_eval 0.0006 0.001 0.0004 (by norm_num) (by norm_num) (by norm_num)

lemma cd_mid_C : calculateDistance 0 0.0006 0 0.002 = mPerDeg * 0.0014 :=
  cd_equator_eval 0.0006 0.002 0.0014 (by norm_num) (by norm_num) (by norm_num)

lemma cd_O_B : calculateDistance 0 0 0 0.001 = mPerDeg * 0.001 :=
  cd_equator_eval 0 0.001 0.001 (by norm_num) (by norm_num) (by norm_num)

lemma cd_B_C : calculateDistance 0 0.001 0 0.002 = mPerDeg * 0.001 :=
  cd_equator_eval 0.001 0.002 0.001 (by norm_num) (by norm_num) (by norm_num)

lemma cd_mid_mid : calculateDistance 0 0.0006 0 0.0006 = 0 :=
  calculateDistance_self 0 0.0006

lemma cd_O_O : calculateDistance 0 0 0 0 = 0 := calculateDistance_self 0 0

/-! Threshold comparisons for the values above, from the bounds on
`mPerDeg`. -/

lemma mul_lt20_A : mPerDeg * 0.0001 < 20 := by nlinarith [mPerDeg_ub]

lemma mul_lt200_A : mPerDeg * 0.0001 < 200 := by nlinarith [mPerDeg_ub]

lemma mul_not50_A : ¬ (50 : ℝ) < mPerDeg * 0.0001 := by nlinarith [mPerDeg_ub]

lemma mul_gt50_nine : (50 : ℝ) < mPerDeg * 0.0009 := by nlinarith [mPerDeg_lb]

lemma mul_gt50_one : (50 : ℝ) < mPerDeg * 1 := by nlinarith [mPerDeg_lb]

lemma mul_not200_one : ¬ mPerDeg * 1 < 200 := by nlinarith [mPerDeg_lb]

lemma mul_not20_one : ¬ mPerDeg * 1 < 20 := by nlinarith [mPerDeg_lb]

lemma mul_not200_five : ¬ mPerDeg * 5 < 200 := by nlinarith [mPerDeg_lb]

lemma mul_not20_five : ¬ mPerDeg * 5 < 20 := by nlinarith [mPerDeg_lb]

lemma mul_not200_4999 : ¬ mPerDeg * 4.999 < 200 := by nlinarith [mPerDeg_lb]

lemma mul_not20_4999 : ¬ mPerDeg * 4.999 < 20 := by nlinarith [mPerDeg_lb]

lemma mul_nine_lt_thousandth : mPerDeg * 0.0009 < mPerDeg * 0.001 := by
  nlinarith [mPerDeg_lb]

lemma mul_not_lt_A_zero : ¬ mPerDeg * 0.0001 < 0 := by nlinarith [mPerDeg_lb]

lemma mul_not_two_lt_one : ¬ mPerDeg * 2 < mPerDeg := by
  nlinarith [mPerDeg_lb]

/-! ### Concrete segment-distance evaluations -/

lemma dls_O_gA : distanceToLineSegment 0 0 0 0 0 0.0001 = 0 := by
  simp only [distanceToLineSegment]
  have h := cd_O_O
  norm_num at h ⊢
  exact h

lemma dls_off_gA :
    distanceToLineSegment 0 0.001 0 0 0 0.0001 = mPerDeg * 0.0009 := by
  simp only [distanceToLineSegment]
  have h := cd_off_A
  norm_num at h ⊢
  exact h

lemma dls_O_gFar : distanceToLineSegment 0 0 0 1 0 2 = mPerDeg * 1 := by
  simp only [distanceToLineSegment]
  have h := cd_O_one
  norm_num at h ⊢
  exact h

lemma dls_mid_seg1 : distanceToLineSegment 0 0.0006 0 0 0 0.001 = 0 := by
  simp only [distanceToLineSegment]
  have h := cd_mid_mid
  norm_num at h ⊢
  exact h

lemma dls_mid_seg2 :
    distanceToLineSegment 0 0.0006 0 0.001 0 0.002 = mPerDeg * 0.0004 := by
  simp only [distanceToLineSegment]
  have h := cd_mid_B
  norm_num at h ⊢
  exact h

/-! ### Minimum-fold and closest-vertex lemmas -/

lemma foldl_min_le_init (l : List ℝ) (a : ℝ) : l.foldl min a ≤ a := by
  induction l generalizing a with
  | nil => exact le_refl a
  | cons x xs ih => exact le_trans (ih (min a x)) (min_le_left a x)

lemma foldl_min_le_mem (l : List ℝ) (a x : ℝ) (hx : x ∈ l) :
    l.foldl min a ≤ x := by
  induction l generalizing a with
  | nil => cases hx
  | cons y ys ih =>
    rcases List.mem_cons.mp hx with h | h
    · subst h
      exact le_trans (foldl_min_le_init ys (min a x)) (min_le_right a x)
    · exact ih (min a y) h

lemma foldl_min_mem (l : List ℝ) (a : ℝ) :
    l.foldl min a = a ∨ l.foldl min a ∈ l := by
  induction l generalizing a with
  | nil => left; rfl
  | cons y ys ih =>
    rcases ih (min a y) with h | h
    · rcases min_choice a y with hm | hm
      · left; rw [List.foldl_cons, h, hm]
      · right; rw [List.foldl_cons, h, hm]; exact List.mem_cons_self y ys
    · right; exact List.mem_cons_of_mem y h

/-- Distance from a position pair `(lat, lng)` to a geometry vertex
(`[lng, lat]` pair), as computed in the first loop of
`calculateDistanceAlongRoute`. -/
def vertexDistance (pos q : ℝ × ℝ) : ℝ := calculateDistance pos.1 pos.2 q.2 q.1

lemma closestAux_le_acc (pos : ℝ × ℝ) (l : List (ℝ × ℝ)) (i : ℕ) (acc : ℕ × ℝ) :
    (closestAux pos l i acc).2 ≤ acc.2 := by
  induction l generalizing i acc with
  | nil => exact le_refl _
  | cons p rest ih =>
    show (closestAux pos (p :: rest) i acc).2 ≤ acc.2
    rw [closestAux]
    split
    · rename_i hlt
      exact le_trans (ih (i + 1) (i, calculateDistance pos.1 pos.2 p.2 p.1))
        (le_of_lt hlt)
    · exact ih (i + 1) acc

lemma closestAux_le_mem (pos : ℝ × ℝ) (l : List (ℝ × ℝ)) (i : ℕ) (acc : ℕ × ℝ)
    (q : ℝ × ℝ) (hq : q ∈ l) :
    (closestAux pos l i acc).2 ≤ vertexDistance pos q := by
  induction l generalizing i acc with
  | nil => cases hq
  | cons p rest ih =>
    rw [closestAux]
    rcases List.mem_cons.mp hq with h | h
    · subst h
      split
      · exact closestAux_le_acc pos rest (i + 1) _
      · rename_i hge
        exact le_trans (closestAux_le_acc pos rest (i + 1) acc) (le_of_not_lt hge)
    · split
      · exact ih (i + 1) _ h
      · exact ih (i + 1) acc h

lemma closestAux_attained (pos : ℝ × ℝ) (l : List (ℝ × ℝ)) (i : ℕ)
    (acc : ℕ × ℝ) :
    closestAux pos l i acc = acc ∨
    ∃ j, j < l.length ∧
      closestAux pos l i acc =
        (i + j, vertexDistance pos (l.getD j (0, 0))) := by
  induction l generalizing i acc with
  | nil => left; rfl
  | cons p rest ih =>
    rw [closestAux]
    split
    · rcases ih (i + 1) (i, calculateDistance pos.1 pos.2 p.2 p.1) with h | h
      · right
        exact ⟨0, by simp, by rw [h]; simp [vertexDistance]⟩
      · right
        obtain ⟨j, hj, hjeq⟩ := h
        refine ⟨j + 1, by simpa using Nat.succ_lt_succ hj, ?_⟩
        rw [hjeq, List.getD_cons_succ]
        have harith : i + 1 + j = i + (j + 1) := by omega
        rw [harith]
    · rcases ih (i + 1) acc with h | h
      · left; exact h
      · right
        obtain ⟨j, hj, hjeq⟩ := h
        refine ⟨j + 1, by simpa using Nat.succ_lt_succ hj, ?_⟩
        rw [hjeq, List.getD_cons_succ]
        have harith : i + 1 + j = i + (j + 1) := by omega
        rw [harith]

/-- The closest-vertex pair of a non-empty geometry names an actual vertex
and attains the minimum vertex distance. -/
lemma closestVertexPair_spec (pos p : ℝ × ℝ) (rest : List (ℝ × ℝ)) :
    ∃ j, j < (p :: rest).length ∧
      closestVertexPair pos (p :: rest) =
        (j, vertexDistance pos ((p :: rest).getD j (0, 0))) ∧
      ∀ q ∈ p :: rest,
        (closestVertexPair pos (p :: rest)).2 ≤ vertexDistance pos q := by
  have hmem : ∀ q ∈ p :: rest,
      (closestVertexPair pos (p :: rest)).2 ≤ vertexDistance pos q := by
    intro q hq
    rcases List.mem_cons.mp hq with h | h
    · subst h
      exact closestAux_le_acc pos rest 1 (0, vertexDistance pos q)
    · exact closestAux_le_mem pos rest 1 _ q h
  rcases closestAux_attained pos rest 1
      (0, calculateDistance pos.1 pos.2 p.2 p.1) with h | h
  · exact ⟨0, by simp, by rw [closestVertexPair, h]; simp [vertexDistance], hmem⟩
  · obtain ⟨j, hj, hjeq⟩ := h
    refine ⟨j + 1, by simpa using Nat.succ_lt_succ hj, ?_, hmem⟩
    rw [closestVertexPair, hjeq, List.getD_cons_succ, Nat.add_comm 1 j]

/-! ### Spec-modelled nearest point on polyline (for claim C8) -/

/-- The foot of the clamped planar projection used by
`distanceToLineSegment`, as a coordinate pair `(x, y)` (`x` = latitude,
`y` = longitude). -/
def footOfProjection (px py x1 y1 x2 y2 : ℝ) : ℝ × ℝ :=
  let A := px - x1
  let B := py - y1
  let C := x2 - x1
  let D := y2 - y1
  let dot := A * C + B * D
  let lenSq := C * C + D * D
  let param := if lenSq = 0 then -1 else dot / lenSq
  (if param < 0 then x1 else if 1 < param then x2 else x1 + param * C,
    if param < 0 then y1 else if 1 < param then y2 else y1 + param * D)

/-- Best (minimum-distance) segment scan, accumulator `(bestIndex, bestDist)`,
first minimizing segment wins. -/
def bestSegmentAux (pos : ℝ × ℝ) : List (ℝ × ℝ) → ℕ → ℕ × ℝ → ℕ × ℝ
  | p1 :: p2 :: rest, i, acc =>
    let d := distanceToLineSegment pos.1 pos.2 p1.2 p1.1 p2.2 p2.1
    if d < acc.2 then bestSegmentAux pos (p2 :: rest) (i + 1) (i, d)
    else bestSegmentAux pos (p2 :: rest) (i + 1) acc
  | _, _, acc => acc

/-- Modelled from the spec: `nearestPointOnPolyline(point, polyline) ->
{segmentIndex, distanceMeters, distanceAlongPolylineMeters}` — the spec
requires scanning every consecutive segment pair, keeping the minimum
`distanceToSegment`, and reporting as the along-polyline distance the
accumulated polyline length up to the minimizing segment start plus the
projected offset of the point within that segment. The source has no such
combined function (its `calculateDistanceAlongRoute` uses the nearest
vertex instead); this definition exists to compare the source behaviour
against the spec sentence. The projected offset is the great-circle distance
from the segment start to the clamped projection foot. -/
def nearestPointOnPolylineSpec (pos : ℝ × ℝ) (geom : List (ℝ × ℝ)) :
    ℕ × ℝ × ℝ :=
  match geom with
  | p1 :: p2 :: rest =>
    let first := distanceToLineSegment pos.1 pos.2 p1.2 p1.1 p2.2 p2.1
    let best := bestSegmentAux pos (p2 :: rest) 1 (0, first)
    let q1 := geom.getD best.1 (0, 0)
    let q2 := geom.getD (best.1 + 1) (0, 0)
    let foot := footOfProjection pos.1 pos.2 q1.2 q1.1 q2.2 q2.1
    (best.1, best.2,
      polylineLengthUpTo geom best.1 + calculateDistance q1.2 q1.1 foot.1 foot.2)
  | _ => (0, 0, 0)

lemma updateNavigation_eq (s : NavState) (pos : PositionSample) (st : Step)
    (h1 : s.isNavigating = true) (h2 : s.currentPosition = some pos)
    (h3 : s.steps.get? s.currentStepIndex = some st) :
    updateNavigation s =
      (let distanceToStep := calculateDistance pos.lat pos.lng
        st.location.2 st.location.1
      let s1 := { s with remainingDistance :=
        st.distanceFromStart + st.distance -
          calculateDistanceAlongRoute (pos.lat, pos.lng) s.routeGeometry }
      let r1 := updateNavigationUI s1 distanceToStep st
      let r2 := if distanceToStep < 20 then advanceToNextStep r1.1
        else (r1.1, [])
      let distanceToRoute :=
        calculateDistanceToRoute (pos.lat, pos.lng) r2.1.routeGeometry
      let r3 := if r2.1.offRouteThreshold < distanceToRoute
        then handleOffRoute r2.1 else (r2.1, [])
      (r3.1, r1.2 ++ r2.2 ++ r3.2)) := by
  unfold updateNavigation
  rw [h1, h2, h3]

/-! ### Concrete scenarios

All scenario coordinates sit on the equator so that every haversine value in
them evaluates exactly to `mPerDeg` times a rational. Geometry points and
step locations are `(lng, lat)` pairs. -/

/-- Short on-route polyline near the origin: 11 m long. -/
def gA : List (ℝ × ℝ) := [(0, 0), (0.0001, 0)]

/-- Polyline far from the origin (111 km away). -/
def gFar : List (ℝ × ℝ) := [(1, 0), (2, 0)]

/-- Three-vertex equator polyline for the along-route comparison. -/
def g8 : List (ℝ × ℝ) := [(0, 0), (0.001, 0), (0.002, 0)]

/-- Sample at the origin, accuracy 5 m. -/
def posO : PositionSample := ⟨0, 0, 5⟩

/-- Sample 111 m east of the origin (beyond the 50 m off-route threshold of
`gA`), accuracy 5 m. -/
def pOff : PositionSample := ⟨0, 0.001, 5⟩

/-- Position pair `(lat, lng)` between the first two vertices of `g8`,
projecting onto the interior of its first segment. -/
def p8 : ℝ × ℝ := (0, 0.0006)

/-- Step whose maneuver anchor is 11 m from the origin. -/
def stepNear : Step := ⟨"A", 100, 60, "Main Street", 0, (0.0001, 0)⟩

/-- Follow-up step whose anchor is 111 km from the origin. -/
def stepSecond : Step := ⟨"B", 50, 30, "Second Street", 100, (1, 0)⟩

/-- Step with a very distant anchor (556 km), so no advancement and no
announcement can trigger. -/
def stepVeryFar : Step := ⟨"A", 100, 60, "Main Street", 0, (5, 0)⟩

/-- Step with a 111 km anchor, used for the remaining-distance scenario. -/
def stepFarAnchor : Step := ⟨"A", 100, 60, "Main Street", 0, (1, 0)⟩

lemma cdr_O_gA : calculateDistanceToRoute (0, 0) gA = 0 := by
  simp [calculateDistanceToRoute, gA, segmentDistances, dls_O_gA]

lemma cdr_O_gA_z : calculateDistanceToRoute 0 gA = 0 := cdr_O_gA

lemma cdr_off_gA : calculateDistanceToRoute (0, 0.001) gA = mPerDeg * 0.0009 := by
  simp [calculateDistanceToRoute, gA, segmentDistances, dls_off_gA]

lemma cdr_O_gFar : calculateDistanceToRoute (0, 0) gFar = mPerDeg * 1 := by
  simp [calculateDistanceToRoute, gFar, segmentDistances, dls_O_gFar]

lemma cdr_O_gFar_z : calculateDistanceToRoute 0 gFar = mPerDeg * 1 :=
  cdr_O_gFar

lemma mul_4_lt_6 : mPerDeg * 0.0004 < mPerDeg * 0.0006 := by
  nlinarith [mPerDeg_lb]

lemma mul_not_14_lt_4 : ¬ mPerDeg * 0.0014 < mPerDeg * 0.0004 := by
  nlinarith [mPerDeg_lb]

lemma cdar_O_gA : calculateDistanceAlongRoute (0, 0) gA = 0 := by
  simp [calculateDistanceAlongRoute, gA, closestVertexPair, closestAux,
    polylineLengthUpTo, cd_O_O, cd_O_A, mul_not_lt_A_zero]

lemma cdar_O_gA_z : calculateDistanceAlongRoute 0 gA = 0 := cdar_O_gA

lemma cdar_off_gA :
    calculateDistanceAlongRoute (0, 0.001) gA = mPerDeg * 0.0001 := by
  simp [calculateDistanceAlongRoute, gA, closestVertexPair, closestAux,
    polylineLengthUpTo, cd_off_O, cd_off_A, mul_nine_lt_thousandth, cd_O_A]

lemma cdar_O_gFar : calculateDistanceAlongRoute (0, 0) gFar = 0 := by
  simp [calculateDistanceAlongRoute, gFar, closestVertexPair, closestAux,
    polylineLengthUpTo, cd_O_one, cd_O_two, mul_not_two_lt_one]

lemma cdar_O_gFar_z : calculateDistanceAlongRoute 0 gFar = 0 := cdar_O_gFar

lemma cdar_mid_g8 :
    calculateDistanceAlongRoute p8 g8 = mPerDeg * 0.001 := by
  simp [calculateDistanceAlongRoute, p8, g8, closestVertexPair, closestAux,
    polylineLengthUpTo, cd_mid_O, cd_mid_B, cd_mid_C, cd_O_B,
    mul_4_lt_6, mul_not_14_lt_4]

/-! ### Per-stage projection lemmas for the `updateNavigation` pipeline -/

lemma ui_idx (s : NavState) (d : ℝ) (st : Step) :
    (updateNavigationUI s d st).1.currentStepIndex = s.currentStepIndex := by
  rcases updateNavigationUI_cases s d st with h | h <;> rw [h]

lemma ui_isNav (s : NavState) (d : ℝ) (st : Step) :
    (updateNavigationUI s d st).1.isNavigating = s.isNavigating := by
  rcases updateNavigationUI_cases s d st with h | h <;> rw [h]

lemma ui_steps (s : NavState) (d : ℝ) (st : Step) :
    (updateNavigationUI s d st).1.steps = s.steps := by
  rcases updateNavigationUI_cases s d st with h | h <;> rw [h]

lemma ui_pos (s : NavState) (d : ℝ) (st : Step) :
    (updateNavigationUI s d st).1.currentPosition = s.currentPosition := by
  rcases updateNavigationUI_cases s d st with h | h <;> rw [h]

lemma ui_remaining (s : NavState) (d : ℝ) (st : Step) :
    (updateNavigationUI s d st).1.remainingDistance = s.remainingDistance := by
  rcases updateNavigationUI_cases s d st with h | h <;> rw [h]

lemma ui_recalc (s : NavState) (d : ℝ) (st : Step) :
    (updateNavigationUI s d st).1.recalculationTimeout =
      s.recalculationTimeout := by
  rcases updateNavigationUI_cases s d st with h | h <;> rw [h]

lemma ui_thresh (s : NavState) (d : ℝ) (st : Step) :
    (updateNavigationUI s d st).1.offRouteThreshold = s.offRouteThreshold := by
  rcases updateNavigationUI_cases s d st with h | h <;> rw [h]

lemma ui_no_arrive (s : NavState) (d : ℝ) (st : Step) :
    Effect.arrive ∉ (updateNavigationUI s d st).2 := by
  rcases updateNavigationUI_cases s d st with h | h <;> rw [h] <;> simp

lemma advanceStage_idx (t : NavState) (c : Prop) [Decidable c] :
    ((if c then advanceToNextStep t else (t, [])).1).currentStepIndex =
      (if c then t.currentStepIndex + 1 else t.currentStepIndex) := by
  split
  · exact advanceToNextStep_index t
  · rfl

lemma offRouteStage_idx (t : NavState) (d : ℝ) :
    ((if t.offRouteThreshold < d then handleOffRoute t else (t, [])).1
      ).currentStepIndex = t.currentStepIndex := by
  split
  · exact (handleOffRoute_preserves t).2.2.1
  · rfl

lemma offRouteStage_isNav (t : NavState) (d : ℝ) :
    ((if t.offRouteThreshold < d then handleOffRoute t else (t, [])).1
      ).isNavigating = t.isNavigating := by
  split
  · exact (handleOffRoute_preserves t).1
  · rfl

lemma offRouteStage_pos (t : NavState) (d : ℝ) :
    ((if t.offRouteThreshold < d then handleOffRoute t else (t, [])).1
      ).currentPosition = t.currentPosition := by
  split
  · exact (handleOffRoute_preserves t).2.2.2.2.1
  · rfl

lemma offRouteStage_remaining (t : NavState) (d : ℝ) :
    ((if t.offRouteThreshold < d then handleOffRoute t else (t, [])).1
      ).remainingDistance = t.remainingDistance := by
  split
  · exact (handleOffRoute_preserves t).2.2.2.2.2.1
  · rfl

lemma offRouteStage_no_arrive (t : NavState) (d : ℝ) :
    Effect.arrive ∉
      (if t.offRouteThreshold < d then handleOffRoute t else (t, [])).2 := by
  split
  · rcases handleOffRoute_cases t with ⟨_, h⟩ | ⟨_, h⟩ <;> rw [h] <;> simp
  · simp

lemma advance_arrive_iff (t : NavState) :
    Effect.arrive ∈ (advanceToNextStep t).2 ↔
      t.steps.length ≤ t.currentStepIndex + 1 := by
  unfold advanceToNextStep arriveAtDestination
  simp only []
  split
  · rename_i hlen
    simpa using hlen
  · rename_i hlen
    split
    · simpa using hlen
    · simpa using hlen

/-! ### Generic pipeline theorems -/

/-- Any accepted tick while navigating with an in-range current step whose
maneuver anchor is within 20 m advances the step index by exactly one;
arrival is declared exactly when the new index runs past the last step, and
otherwise navigation continues. -/
lemma advance_general (s : NavState) (pos : PositionSample) (st : Step)
    (h1 : s.isNavigating = true) (h2 : s.currentPosition = some pos)
    (h3 : s.steps.get? s.currentStepIndex = some st)
    (h4 : calculateDistance pos.lat pos.lng st.location.2 st.location.1 < 20) :
    (updateNavigation s).1.currentStepIndex = s.currentStepIndex + 1 ∧
    (Effect.arrive ∈ (updateNavigation s).2 ↔
      s.steps.length ≤ s.currentStepIndex + 1) ∧
    (updateNavigation s).1.isNavigating = true := by
  rw [updateNavigation_eq s pos st h1 h2 h3]
  simp only []
  rw [if_pos h4]
  constructor
  · rw [offRouteStage_idx, advanceToNextStep_index, ui_idx]
  constructor
  · constructor
    · intro hmem
      rcases List.mem_append.mp hmem with hmem | hmem
      · rcases List.mem_append.mp hmem with hmem | hmem
        · exact absurd hmem (ui_no_arrive _ _ _)
        · have h := (advance_arrive_iff _).mp hmem
          rwa [ui_steps, ui_idx] at h
      · exact absurd hmem (offRouteStage_no_arrive _ _)
    · intro hlen
      refine List.mem_append.mpr (Or.inl (List.mem_append.mpr (Or.inr ?_)))
      refine (advance_arrive_iff _).mpr ?_
      rwa [ui_steps, ui_idx]
  · rw [offRouteStage_isNav]
    rw [(advanceToNextStep_preserves _).1, ui_isNav]
    exact h1

/-- The remaining distance written by a tick with an in-range current step:
the step prefix offset plus the step distance minus the along-route distance
(no clamping). -/
lemma remaining_general (s : NavState) (pos : PositionSample) (st : Step)
    (h1 : s.isNavigating = true) (h2 : s.currentPosition = some pos)
    (h3 : s.steps.get? s.currentStepIndex = some st) :
    (updateNavigation s).1.remainingDistance =
      st.distanceFromStart + st.distance -
        calculateDistanceAlongRoute (pos.lat, pos.lng) s.routeGeometry := by
  rw [updateNavigation_eq s pos st h1 h2 h3]
  simp only []
  rw [offRouteStage_remaining]
  split
  · rw [(advanceToNextStep_preserves _).2.2.2.2.2.2, ui_remaining]
  · rw [ui_remaining]

/-- When the off-route threshold is exceeded and no timeout handle exists,
the off-route stage fires: it arms the debounce and emits the recalculation
prompt effects. -/
lemma offRouteStage_fire (t : NavState) (d : ℝ) (hlt : t.offRouteThreshold < d)
    (hflag : t.recalculationTimeout = false) :
    (if t.offRouteThreshold < d then handleOffRoute t else (t, [])) =
      ({ t with recalculationTimeout := true },
        [Effect.speak "Recalculating route", Effect.recalcScheduled]) := by
  rw [if_pos hlt]
  rcases handleOffRoute_cases t with ⟨hc, _⟩ | ⟨_, hc⟩
  · rw [hflag] at hc
    cases hc
  · exact hc

/-- When the distance to the route does not exceed the threshold, the
off-route stage is a no-op. -/
lemma offRouteStage_skip (t : NavState) (d : ℝ)
    (hle : ¬ t.offRouteThreshold < d) :
    (if t.offRouteThreshold < d then handleOffRoute t else (t, [])) =
      (t, []) := by
  rw [if_neg hle]

lemma ui_geom (s : NavState) (d : ℝ) (st : Step) :
    (updateNavigationUI s d st).1.routeGeometry = s.routeGeometry := by
  rcases updateNavigationUI_cases s d st with h | h <;> rw [h]

/-- A tick that advances while the off-route condition also holds both
advances and arms the recalculation debounce: the off-route evaluation is not
skipped. -/
lemma advance_and_offroute (s : NavState) (pos : PositionSample) (st : Step)
    (h1 : s.isNavigating = true) (h2 : s.currentPosition = some pos)
    (h3 : s.steps.get? s.currentStepIndex = some st)
    (h4 : calculateDistance pos.lat pos.lng st.location.2 st.location.1 < 20)
    (h5 : s.offRouteThreshold <
      calculateDistanceToRoute (pos.lat, pos.lng) s.routeGeometry)
    (h6 : s.recalculationTimeout = false) :
    (updateNavigation s).1.currentStepIndex = s.currentStepIndex + 1 ∧
    (updateNavigation s).1.recalculationTimeout = true ∧
    Effect.recalcScheduled ∈ (updateNavigation s).2 := by
  rw [updateNavigation_eq s pos st h1 h2 h3]
  simp only []
  rw [if_pos h4]
  rw [offRouteStage_fire]
  · refine ⟨?_, ?_, ?_⟩
    · simp only []
      rw [advanceToNextStep_index, ui_idx]
    · rfl
    · simp
  · rw [(advanceToNextStep_preserves _).2.2.2.1, ui_thresh,
      (advanceToNextStep_preserves _).2.2.1, ui_geom]
    exact h5
  · rw [(advanceToNextStep_preserves _).2.2.2.2.1, ui_recalc]
    exact h6

lemma updateNavigation_no_pos (s : NavState) (h : s.currentPosition = none) :
    updateNavigation s = (s, []) := by
  unfold updateNavigation
  rw [h]
  cases s.isNavigating <;> rfl

lemma updateNavigation_entry_arrival (s : NavState) (pos : PositionSample)
    (h1 : s.isNavigating = true) (h2 : s.currentPosition = some pos)
    (h3 : s.steps.get? s.currentStepIndex = none) :
    updateNavigation s = arriveAtDestination s := by
  unfold updateNavigation
  rw [h1, h2, h3]

/-- `updateNavigation` never writes `currentPosition`. -/
lemma updateNavigation_pos (s : NavState) :
    (updateNavigation s).1.currentPosition = s.currentPosition := by
  rcases hn : s.isNavigating with _ | _
  · rw [updateNavigation_guard_off s hn]
  · rcases hp : s.currentPosition with _ | pos
    · rw [updateNavigation_no_pos s hp]
      exact hp
    · rcases hst : s.steps.get? s.currentStepIndex with _ | st
      · rw [updateNavigation_entry_arrival s pos hn hp hst]
        exact hp
      · rw [updateNavigation_eq s pos st hn hp hst]
        simp only []
        rw [offRouteStage_pos]
        split
        · rw [(advanceToNextStep_preserves _).2.2.2.2.2.1, ui_pos]
          exact hp
        · rw [ui_pos]
          exact hp

/-- A tick whose maneuver is at least 200 m away and whose position is within
the off-route threshold only rewrites the remaining distance. -/
lemma quiet_tick (s : NavState) (pos : PositionSample) (st : Step)
    (h1 : s.isNavigating = true) (h2 : s.currentPosition = some pos)
    (h3 : s.steps.get? s.currentStepIndex = some st)
    (h4 : ¬ calculateDistance pos.lat pos.lng st.location.2 st.location.1 < 200)
    (h5 : ¬ calculateDistance pos.lat pos.lng st.location.2 st.location.1 < 20)
    (h6 : ¬ s.offRouteThreshold <
      calculateDistanceToRoute (pos.lat, pos.lng) s.routeGeometry) :
    updateNavigation s =
      ({ s with remainingDistance := st.distanceFromStart + st.distance -
        calculateDistanceAlongRoute (pos.lat, pos.lng) s.routeGeometry },
        []) := by
  rw [updateNavigation_eq s pos st h1 h2 h3]
  simp only []
  rw [updateNavigationUI_far _ _ _ h4]
  simp only []
  rw [if_neg h5]
  simp only []
  rw [if_neg h6]
  rfl

/-- A tick whose maneuver is at least 200 m away but whose position exceeds
the off-route threshold (with no timeout pending) arms the debounce. -/
lemma quiet_offroute_tick (s : NavState) (pos : PositionSample) (st : Step)
    (h1 : s.isNavigating = true) (h2 : s.currentPosition = some pos)
    (h3 : s.steps.get? s.currentStepIndex = some st)
    (h4 : ¬ calculateDistance pos.lat pos.lng st.location.2 st.location.1 < 200)
    (h5 : ¬ calculateDistance pos.lat pos.lng st.location.2 st.location.1 < 20)
    (h6 : s.offRouteThreshold <
      calculateDistanceToRoute (pos.lat, pos.lng) s.routeGeometry)
    (h7 : s.recalculationTimeout = false) :
    updateNavigation s =
      ({ s with
        remainingDistance := st.distanceFromStart + st.distance -
          calculateDistanceAlongRoute (pos.lat, pos.lng) s.routeGeometry,
        recalculationTimeout := true },
        [Effect.speak "Recalculating route", Effect.recalcScheduled]) := by
  rw [updateNavigation_eq s pos st h1 h2 h3]
  simp only []
  rw [updateNavigationUI_far _ _ _ h4]
  simp only []
  rw [if_neg h5]
  simp only []
  rw [if_pos h6]
  unfold handleOffRoute
  simp only []
  rw [if_neg (by rw [h7]; simp)]
  rfl

lemma handleLocationUpdate_nav (s : NavState) (sample : PositionSample)
    (h : s.isNavigating = true) :
    handleLocationUpdate s sample =
      updateNavigation { s with currentPosition := some sample } := by
  unfold handleLocationUpdate
  simp only []
  rw [if_pos]
  exact h

lemma handleLocationUpdate_idle (s : NavState) (sample : PositionSample)
    (h : s.isNavigating = false) :
    handleLocationUpdate s sample =
      ({ s with currentPosition := some sample }, []) := by
  unfold handleLocationUpdate
  simp only []
  rw [if_neg]
  simp [h]

/-! ### Advancement-tick helpers -/

lemma advance_speak_next (t : NavState) (next : Step)
    (h : t.steps.get? (t.currentStepIndex + 1) = some next) :
    (advanceToNextStep t).2 = [Effect.speak next.instruction] := by
  unfold advanceToNextStep
  simp only []
  have hlt : ¬ t.steps.length ≤ t.currentStepIndex + 1 := by
    intro hc
    rw [List.get?_eq_none.mpr hc] at h
    cases h
  rw [if_neg hlt, h]

/-- A tick within 20 m of the current maneuver with a next step in range
speaks the next instruction immediately, whatever the distance to that next
step. -/
lemma advance_tick_speaks (s : NavState) (pos : PositionSample) (st next : Step)
    (h1 : s.isNavigating = true) (h2 : s.currentPosition = some pos)
    (h3 : s.steps.get? s.currentStepIndex = some st)
    (h4 : calculateDistance pos.lat pos.lng st.location.2 st.location.1 < 20)
    (h5 : s.steps.get? (s.currentStepIndex + 1) = some next) :
    Effect.speak next.instruction ∈ (updateNavigation s).2 := by
  rw [updateNavigation_eq s pos st h1 h2 h3]
  simp only []
  rw [if_pos h4]
  have hsp : (advanceToNextStep
      (updateNavigationUI { s with remainingDistance :=
        st.distanceFromStart + st.distance -
          calculateDistanceAlongRoute (pos.lat, pos.lng) s.routeGeometry }
        (calculateDistance pos.lat pos.lng st.location.2 st.location.1) st).1
      ).2 = [Effect.speak next.instruction] := by
    refine advance_speak_next _ next ?_
    rw [ui_steps, ui_idx]
    exact h5
  rw [hsp]
  simp

/-! ### World-level step lemmas -/

lemma stepWorld_debounce_pending (w : World) (h : w.timerPending = true) :
    stepWorld w NavEvent.debounceElapsed =
      ({ w with timerPending := false, fetchInFlight := true },
        [Effect.recalcInvoked]) := by
  unfold stepWorld
  rw [if_pos h]

lemma stepWorld_debounce_idle (w : World) (h : w.timerPending = false) :
    stepWorld w NavEvent.debounceElapsed = (w, []) := by
  unfold stepWorld
  rw [if_neg (by simp [h])]

lemma stepWorld_stop (w : World) :
    stepWorld w NavEvent.stop =
      ({ w with s := stopNavigation w.s, timerPending := false }, []) := rfl

lemma stepWorld_resolved (w : World) (r : RouteData)
    (h : w.fetchInFlight = true) :
    stepWorld w (NavEvent.recalcResolved r) =
      ({ w with
        s := { applyRouteData w.s r with
          currentStepIndex := 0,
          lastSpokenInstruction := none,
          recalculationTimeout := false },
        fetchInFlight := false }, [Effect.recalcApplied]) := by
  simp only [stepWorld]
  rw [if_pos h]

lemma stepWorld_position (w : World) (sample : PositionSample) :
    stepWorld w (NavEvent.position sample) =
      ({ w with
        s := (handleLocationUpdate w.s sample).1,
        timerPending := w.timerPending ||
          (handleLocationUpdate w.s sample).2.contains Effect.recalcScheduled },
        (handleLocationUpdate w.s sample).2) := rfl

/-! ### The off-route / re-join / debounce scenario -/

/-- Navigating state on route `gA` whose only step has a very distant anchor,
with no sample received yet, no debounce pending. -/
def sNav : NavState :=
  ⟨true, [stepVeryFar], 0, 100, 60, 100, gA, some "A", 50, false, none⟩

/-- `sNav` after processing the off-route sample `pOff`: the debounce is
armed. -/
def sAfterOff : NavState :=
  ⟨true, [stepVeryFar], 0, 100, 60, 100 - mPerDeg * 0.0001, gA, some "A", 50,
    true, some pOff⟩

/-- `sAfterOff` after processing the on-route sample `posO`: the debounce
handle is still set; nothing cancelled it. -/
def sAfterOn : NavState :=
  ⟨true, [stepVeryFar], 0, 100, 60, 100, gA, some "A", 50, true, some posO⟩

/-- Initial world: navigating, no timer, no fetch. -/
def w0 : World := ⟨sNav, false, false⟩

lemma tick_off : updateNavigation { sNav with currentPosition := some pOff } =
    (sAfterOff, [Effect.speak "Recalculating route",
      Effect.recalcScheduled]) := by
  rw [quiet_offroute_tick { sNav with currentPosition := some pOff }
    pOff stepVeryFar rfl rfl rfl
    (by simpa [pOff, stepVeryFar, cd_off_five] using mul_not200_4999)
    (by simpa [pOff, stepVeryFar, cd_off_five] using mul_not20_4999)
    (by simpa [sNav, pOff, cdr_off_gA] using mul_gt50_nine) rfl]
  simp [sNav, sAfterOff, stepVeryFar, pOff, cdar_off_gA]

lemma tick_on : updateNavigation { sAfterOff with currentPosition := some posO }
    = (sAfterOn, []) := by
  rw [quiet_tick { sAfterOff with currentPosition := some posO }
    posO stepVeryFar rfl rfl rfl
    (by simpa [posO, stepVeryFar, cd_O_five] using mul_not200_five)
    (by simpa [posO, stepVeryFar, cd_O_five] using mul_not20_five)
    (by simp [sAfterOff, posO, cdr_O_gA, cdr_O_gA_z])]
  simp [sAfterOff, sAfterOn, stepVeryFar, posO, cdar_O_gA, cdar_O_gA_z]

lemma world_tick_off : stepWorld w0 (NavEvent.position pOff) =
    (⟨sAfterOff, true, false⟩, [Effect.speak "Recalculating route",
      Effect.recalcScheduled]) := by
  rw [stepWorld_position]
  rw [show w0.s = sNav from rfl]
  rw [handleLocationUpdate_nav sNav pOff rfl, tick_off]
  refine congrArg (fun x => (x, _)) ?_
  show World.mk sAfterOff _ w0.fetchInFlight = World.mk sAfterOff true false
  norm_num [w0]

lemma world_tick_on : stepWorld ⟨sAfterOff, true, false⟩
    (NavEvent.position posO) = (⟨sAfterOn, true, false⟩, []) := by
  rw [stepWorld_position]
  rw [show (⟨sAfterOff, true, false⟩ : World).s = sAfterOff from rfl]
  rw [handleLocationUpdate_nav sAfterOff posO rfl, tick_on]
  rfl

/-- Off-route sample, on-route sample before the debounce fires, then timer
expiry: the full event run. The recalculation is invoked although the
traveler re-joined the route before the debounce elapsed. -/
lemma runC1_eq : runWorld w0 [NavEvent.position pOff, NavEvent.position posO,
    NavEvent.debounceElapsed] =
    (⟨sAfterOn, false, true⟩, [Effect.speak "Recalculating route",
      Effect.recalcScheduled, Effect.recalcInvoked]) := by
  simp only [runWorld]
  rw [world_tick_off]
  simp only []
  rw [world_tick_on]
  simp only []
  rw [stepWorld_debounce_pending ⟨sAfterOn, true, false⟩ rfl]
  rfl

/-- The replacement route returned by a late recalculation. -/
def r2route : RouteData :=
  ⟨999, 120, [(0, 0), (1, 0)], [⟨"C", 999, 120, "New Road", (1, 0)⟩]⟩

/-- The navigation state after the stopped session receives the resolved
recalculation: the route data of `r2route` has been applied to it. -/
def sFinal : NavState :=
  ⟨false, [⟨"C", 999, 120, "New Road", 0, (1, 0)⟩], 0, 999, 120, 999,
    [(0, 0), (1, 0)], none, 50, false, some pOff⟩

/-- Off-route sample, debounce expiry (fetch starts), stop, then fetch
resolution: the resolved route is applied to the stopped session. -/
lemma runC7_eq : runWorld w0 [NavEvent.position pOff, NavEvent.debounceElapsed,
    NavEvent.stop, NavEvent.recalcResolved r2route] =
    (⟨sFinal, false, false⟩, [Effect.speak "Recalculating route",
      Effect.recalcScheduled, Effect.recalcInvoked,
      Effect.recalcApplied]) := by
  simp only [runWorld]
  rw [world_tick_off]
  simp only []
  rw [stepWorld_debounce_pending ⟨sAfterOff, true, false⟩ rfl]
  simp only []
  rw [stepWorld_stop]
  simp only []
  rw [stepWorld_resolved _ r2route rfl]
  rfl

/-! ### Remaining concrete scenarios -/

/-- Single-step session within 20 m of its only maneuver: the advancing tick
runs past the last step and declares arrival. -/
def sArr : NavState :=
  ⟨true, [stepNear], 0, 100, 60, 100, gA, some "A", 50, false, some posO⟩

/-- Session whose current step ends 100 m into a 150 m route; the position
sits at the route start. -/
def sC4 : NavState :=
  ⟨true, [stepFarAnchor, stepSecond], 0, 150, 90, 150, gA, some "A", 50,
    false, some posO⟩

/-- Session within 20 m of the current maneuver while more than 50 m from
the route polyline (`gFar` is 111 km away). -/
def sC5 : NavState :=
  ⟨true, [stepNear, stepSecond], 0, 150, 90, 150, gFar, some "A", 50, false,
    some posO⟩

/-- Session within 20 m of the current maneuver, on route, whose next step
anchor is 111 km away. -/
def sC6 : NavState :=
  ⟨true, [stepNear, stepSecond], 0, 150, 90, 150, gA, some "A", 50, false,
    some posO⟩

/-- Idle session that already holds a good-accuracy sample. -/
def sIdle : NavState :=
  ⟨false, [], 0, 0, 0, 0, [], none, 50, false, some posO⟩

/-- Incoming sample with 1000 m accuracy at the same coordinate as the held
5 m-accuracy sample. -/
def badSample : PositionSample := ⟨0, 0, 1000⟩

/-! ### Announcement fold (claim C6) -/

/-- Repeated evaluation of the announcement part of `updateNavigationUI` for
a fixed current step over a list of maneuver distances: the state threads
through, the spoken effects accumulate. -/
def uiRun (step : Step) : NavState → List ℝ → NavState × List Effect
  | s, [] => (s, [])
  | s, d :: ds =>
    let r := updateNavigationUI s d step
    let rest := uiRun step r.1 ds
    (rest.1, r.2 ++ rest.2)

lemma uiRun_silent (step : Step) (s : NavState) (ds : List ℝ)
    (h : s.lastSpokenInstruction = some step.instruction) :
    uiRun step s ds = (s, []) := by
  induction ds with
  | nil => rfl
  | cons d ds ih =>
    rw [uiRun]
    rw [updateNavigationUI_same s d step h]
    simp only []
    rw [ih]
    rfl

lemma uiRun_length (step : Step) (s : NavState) (ds : List ℝ) :
    (uiRun step s ds).2.length ≤ 1 := by
  induction ds generalizing s with
  | nil => simp [uiRun]
  | cons d ds ih =>
    rw [uiRun]
    rcases updateNavigationUI_cases s d step with h | h
    · rw [h]
      simp only []
      simpa using ih s
    · rw [h]
      simp only []
      rw [uiRun_silent step _ ds rfl]
      simp

/-! ### Spec-side evaluation for claim C8 -/

lemma cd_O_mid : calculateDistance 0 0 0 0.0006 = mPerDeg * 0.0006 :=
  cd_equator_eval 0 0.0006 0.0006 (by norm_num) (by norm_num) (by norm_num)

lemma mul_not_4_lt_0 : ¬ mPerDeg * 0.0004 < 0 := by nlinarith [mPerDeg_lb]

lemma foot_mid : footOfProjection 0 0.0006 0 0 0 0.001 = (0, 0.0006) := by
  simp only [footOfProjection]
  norm_num

lemma nspec_mid_g8 :
    nearestPointOnPolylineSpec p8 g8 = (0, 0, mPerDeg * 0.0006) := by
  simp [nearestPointOnPolylineSpec, p8, g8, bestSegmentAux, dls_mid_seg1,
    dls_mid_seg2, mul_not_4_lt_0, foot_mid, polylineLengthUpTo, cd_O_mid,
    List.getD]

/-- Reduction of `calculateDistanceToRoute` on a geometry with at least one
segment. -/
lemma calculateDistanceToRoute_eq (pos : ℝ × ℝ) (geom : List (ℝ × ℝ)) (d : ℝ)
    (ds : List ℝ) (h : segmentDistances pos geom = d :: ds) :
    calculateDistanceToRoute pos geom = ds.foldl min d := by
  unfold calculateDistanceToRoute
  rw [h]

/-! ### Claim theorems -/

/-- Claim C1, counterexample. A sample beyond the 50 m off-route threshold
(`pOff`, 100 m from `gA`) immediately followed, before the 3 s debounce
elapses, by a sample under the threshold (`posO`, on the polyline) does NOT
cancel the pending recalculation: when the debounce timer then fires, the
external recalculation is invoked, contradicting the claim that it is not
triggered. -/
theorem C1_counterexample :
    sNav.offRouteThreshold <
      calculateDistanceToRoute (pOff.lat, pOff.lng) sNav.routeGeometry ∧
    ¬ sNav.offRouteThreshold <
      calculateDistanceToRoute (posO.lat, posO.lng) sNav.routeGeometry ∧
    Effect.recalcInvoked ∈ (runWorld w0 [NavEvent.position pOff,
      NavEvent.position posO, NavEvent.debounceElapsed]).2 := by
  refine ⟨?_, ?_, ?_⟩
  · simpa [sNav, pOff, cdr_off_gA] using mul_gt50_nine
  · norm_num [sNav, posO, cdr_O_gA, cdr_O_gA_z]
  · rw [runC1_eq]
    simp

/-- Claim C1, amended: re-joining the route before the debounce elapses does
NOT cancel the pending recalculation. Processing any position sample (in
particular one back on the route) while the debounce timer is pending leaves
it pending, and the subsequent timer expiry still invokes the external
recalculation; the source never calls `clearTimeout` on re-join. -/
theorem C1_amended (w : World) (p : PositionSample)
    (h : w.timerPending = true) :
    (stepWorld w (NavEvent.position p)).1.timerPending = true ∧
    Effect.recalcInvoked ∈ (stepWorld (stepWorld w (NavEvent.position p)).1
      NavEvent.debounceElapsed).2 := by
  have h1 : (stepWorld w (NavEvent.position p)).1.timerPending = true := by
    rw [stepWorld_position]
    simp [h]
  refine ⟨h1, ?_⟩
  rw [stepWorld_debounce_pending _ h1]
  simp

/-- Witness for the amended claim C1 at a concrete pending-timer world. -/
theorem C1_amended_witness :
    (⟨sIdle, true, false⟩ : World).timerPending = true ∧
    ((stepWorld (⟨sIdle, true, false⟩ : World)
        (NavEvent.position posO)).1.timerPending = true ∧
      Effect.recalcInvoked ∈ (stepWorld (stepWorld
        (⟨sIdle, true, false⟩ : World) (NavEvent.position posO)).1
        NavEvent.debounceElapsed).2) :=
  ⟨rfl, C1_amended ⟨sIdle, true, false⟩ posO rfl⟩

/-- Claim C2, counterexample. The held sample `posO` has accuracy 5 m; the
incoming sample `badSample` has accuracy 1000 m (over the 100 m ceiling,
while a better sample exists) and zero displacement (under the 2 m epsilon,
with strictly worse accuracy). The claim demands rejection; the source
accepts it as the new current position. -/
theorem C2_counterexample :
    (100 : ℝ) < badSample.accuracy ∧
    sIdle.currentPosition = some posO ∧
    posO.accuracy < badSample.accuracy ∧
    calculateDistance badSample.lat badSample.lng posO.lat posO.lng < 2 ∧
    (handleLocationUpdate sIdle badSample).1.currentPosition =
      some badSample ∧
    some badSample ≠ sIdle.currentPosition := by
  refine ⟨by norm_num [badSample], rfl, by norm_num [posO, badSample],
    ?_, ?_, ?_⟩
  · rw [show calculateDistance badSample.lat badSample.lng posO.lat posO.lng =
      calculateDistance 0 0 0 0 from rfl, cd_O_O]
    norm_num
  · rw [handleLocationUpdate_idle sIdle badSample rfl]
  · norm_num [badSample, sIdle, posO]

/-- Claim C2, amended: `handleLocationUpdate` performs no filtering at all —
every incoming sample, whatever its accuracy or displacement, unconditionally
becomes the current position. -/
theorem C2_amended (s : NavState) (sample : PositionSample) :
    (handleLocationUpdate s sample).1.currentPosition = some sample := by
  unfold handleLocationUpdate
  simp only []
  split
  · rw [updateNavigation_pos]
  · rfl

/-- Claim C3: on an accepted update while navigating, if the distance to the
current maneuver anchor is below 20 m the step index is incremented by one;
when the new index runs past the last step, arrival is declared, and
otherwise the session stays navigating. -/
theorem C3_step_advancement (s : NavState) (pos : PositionSample) (st : Step)
    (h1 : s.isNavigating = true) (h2 : s.currentPosition = some pos)
    (h3 : s.steps.get? s.currentStepIndex = some st)
    (h4 : calculateDistance pos.lat pos.lng st.location.2 st.location.1 < 20) :
    (updateNavigation s).1.currentStepIndex = s.currentStepIndex + 1 ∧
    (s.steps.length ≤ s.currentStepIndex + 1 →
      Effect.arrive ∈ (updateNavigation s).2) ∧
    (¬ s.steps.length ≤ s.currentStepIndex + 1 →
      Effect.arrive ∉ (updateNavigation s).2 ∧
      (updateNavigation s).1.isNavigating = true) := by
  obtain ⟨hidx, hiff, hnav⟩ := advance_general s pos st h1 h2 h3 h4
  exact ⟨hidx, fun h => hiff.mpr h, fun h => ⟨fun hm => h (hiff.mp hm), hnav⟩⟩

/-- Witness for claim C3 at a concrete single-step session 11 m from its
arrival maneuver. -/
theorem C3_step_advancement_witness :
    calculateDistance posO.lat posO.lng stepNear.location.2
      stepNear.location.1 < 20 ∧
    (updateNavigation sArr).1.currentStepIndex = 1 ∧
    Effect.arrive ∈ (updateNavigation sArr).2 := by
  have hd : calculateDistance posO.lat posO.lng stepNear.location.2
      stepNear.location.1 < 20 := by
    simpa [posO, stepNear, cd_O_A] using mul_lt20_A
  obtain ⟨hidx, himp, _⟩ :=
    C3_step_advancement sArr posO stepNear rfl rfl rfl hd
  exact ⟨hd, hidx, himp (by simp [sArr])⟩

/-- Claim C4, counterexample. In `sC4` the route total is 150 m and the
along-route distance is 0, so the claimed formula gives
`max 0 (150 - 0) = 150`; the source instead computes
`currentStep.distanceFromStart + currentStep.distance - along = 100`. -/
theorem C4_counterexample :
    (updateNavigation sC4).1.remainingDistance = 100 ∧
    max 0 (sC4.totalDistance -
      calculateDistanceAlongRoute (posO.lat, posO.lng) sC4.routeGeometry)
      = 150 ∧
    (100 : ℝ) ≠ 150 := by
  have hal : calculateDistanceAlongRoute (posO.lat, posO.lng)
      sC4.routeGeometry = 0 := by
    rw [show ((posO.lat, posO.lng) : ℝ × ℝ) = ((0 : ℝ), (0 : ℝ)) from rfl,
      show sC4.routeGeometry = gA from rfl, cdar_O_gA]
  have hr := remaining_general sC4 posO stepFarAnchor rfl rfl rfl
  rw [hal] at hr
  refine ⟨?_, ?_, by norm_num⟩
  · rw [hr]
    norm_num [stepFarAnchor]
  · rw [hal]
    norm_num [sC4]

/-- Claim C4, amended: each tick recomputes the remaining distance as the
current step end offset (`distanceFromStart + distance`) minus the
along-route distance — not the route total — and the result is not clamped
to be non-negative. -/
theorem C4_amended (s : NavState) (pos : PositionSample) (st : Step)
    (h1 : s.isNavigating = true) (h2 : s.currentPosition = some pos)
    (h3 : s.steps.get? s.currentStepIndex = some st) :
    (updateNavigation s).1.remainingDistance =
      st.distanceFromStart + st.distance -
        calculateDistanceAlongRoute (pos.lat, pos.lng) s.routeGeometry :=
  remaining_general s pos st h1 h2 h3

/-- Witness for the amended claim C4 at the concrete session `sC4`. -/
theorem C4_amended_witness :
    (updateNavigation sC4).1.remainingDistance =
      stepFarAnchor.distanceFromStart + stepFarAnchor.distance -
        calculateDistanceAlongRoute (posO.lat, posO.lng) sC4.routeGeometry :=
  C4_amended sC4 posO stepFarAnchor rfl rfl rfl

/-- Claim C5, counterexample. In `sC5` the position is 11 m from the current
maneuver anchor (so the step advances) while simultaneously 111 km from the
polyline; the claim says off-route evaluation is skipped for that tick, but
the source both advances and arms the off-route recalculation debounce on
the same update. -/
theorem C5_counterexample :
    calculateDistance posO.lat posO.lng stepNear.location.2
      stepNear.location.1 < 20 ∧
    sC5.offRouteThreshold <
      calculateDistanceToRoute (posO.lat, posO.lng) sC5.routeGeometry ∧
    (updateNavigation sC5).1.currentStepIndex = 1 ∧
    Effect.recalcScheduled ∈ (updateNavigation sC5).2 := by
  have hd : calculateDistance posO.lat posO.lng stepNear.location.2
      stepNear.location.1 < 20 := by
    simpa [posO, stepNear, cd_O_A] using mul_lt20_A
  have hroute : sC5.offRouteThreshold <
      calculateDistanceToRoute (posO.lat, posO.lng) sC5.routeGeometry := by
    rw [show ((posO.lat, posO.lng) : ℝ × ℝ) = ((0 : ℝ), (0 : ℝ)) from rfl,
      show sC5.routeGeometry = gFar from rfl, cdr_O_gFar]
    exact mul_gt50_one
  obtain ⟨hidx, _, hmem⟩ :=
    advance_and_offroute sC5 posO stepNear rfl rfl rfl hd hroute rfl
  exact ⟨hd, hroute, hidx, hmem⟩

/-- Claim C5, amended: step advancement does NOT suppress the off-route
check. On a tick that advances, the off-route evaluation still runs on the
advanced state, and when the distance to the polyline exceeds the threshold
(with no debounce pending) the recalculation debounce is armed on that same
update. -/
theorem C5_amended (s : NavState) (pos : PositionSample) (st : Step)
    (h1 : s.isNavigating = true) (h2 : s.currentPosition = some pos)
    (h3 : s.steps.get? s.currentStepIndex = some st)
    (h4 : calculateDistance pos.lat pos.lng st.location.2 st.location.1 < 20)
    (h5 : s.offRouteThreshold <
      calculateDistanceToRoute (pos.lat, pos.lng) s.routeGeometry)
    (h6 : s.recalculationTimeout = false) :
    (updateNavigation s).1.currentStepIndex = s.currentStepIndex + 1 ∧
    (updateNavigation s).1.recalculationTimeout = true ∧
    Effect.recalcScheduled ∈ (updateNavigation s).2 :=
  advance_and_offroute s pos st h1 h2 h3 h4 h5 h6

/-- Witness for the amended claim C5 at the concrete session `sC5`. -/
theorem C5_amended_witness :
    (updateNavigation sC5).1.currentStepIndex = 1 ∧
    (updateNavigation sC5).1.recalculationTimeout = true ∧
    Effect.recalcScheduled ∈ (updateNavigation sC5).2 := by
  have hd : calculateDistance posO.lat posO.lng stepNear.location.2
      stepNear.location.1 < 20 := by
    simpa [posO, stepNear, cd_O_A] using mul_lt20_A
  have hroute : sC5.offRouteThreshold <
      calculateDistanceToRoute (posO.lat, posO.lng) sC5.routeGeometry := by
    rw [show ((posO.lat, posO.lng) : ℝ × ℝ) = ((0 : ℝ), (0 : ℝ)) from rfl,
      show sC5.routeGeometry = gFar from rfl, cdr_O_gFar]
    exact mul_gt50_one
  exact C5_amended sC5 posO stepNear rfl rfl rfl hd hroute rfl

/-- Claim C6, counterexample. In `sC6` the tick advances to step 1, and the
source immediately speaks step 1's instruction although the distance to step
1's maneuver anchor is 111 km — far above the 200 m announcement radius. The
announcement therefore does not fire "the first time the distance drops below
the announcement radius", and it is tracked via the last spoken instruction
text, not a step index. -/
theorem C6_counterexample :
    ¬ calculateDistance posO.lat posO.lng stepSecond.location.2
      stepSecond.location.1 < 200 ∧
    (updateNavigation sC6).1.currentStepIndex = 1 ∧
    Effect.speak stepSecond.instruction ∈ (updateNavigation sC6).2 := by
  have hd : calculateDistance posO.lat posO.lng stepNear.location.2
      stepNear.location.1 < 20 := by
    simpa [posO, stepNear, cd_O_A] using mul_lt20_A
  refine ⟨by simpa [posO, stepSecond, cd_O_one] using mul_not200_one, ?_, ?_⟩
  · exact (advance_general sC6 posO stepNear rfl rfl rfl hd).1
  · exact advance_tick_speaks sC6 posO stepNear stepSecond rfl rfl rfl hd rfl

/-- Claim C6, amended: the distance-based announcement path fires at most
once per step while that step stays current (the guard records the spoken
instruction text, so repeated ticks or oscillation inside the radius never
refire); in addition, advancing to a step always emits a spoken announcement
immediately, regardless of the distance to its maneuver. -/
theorem C6_amended (step : Step) (s : NavState) (ds : List ℝ) :
    (uiRun step s ds).2.length ≤ 1 ∧
    ∀ t : NavState, (advanceToNextStep t).2 ≠ [] := by
  refine ⟨uiRun_length step s ds, fun t => ?_⟩
  rcases advanceToNextStep_speaks t with ⟨hne, _⟩ | heq
  · exact hne
  · rw [heq]
    simp

/-- Claim C7, counterexample. After the off-route debounce fires (the route
fetch is in flight), stopping navigation does not suppress the in-flight
recalculation: when the fetch resolves, the replacement route (total 999 m)
is applied to the stopped session, whose route data before resolution was
the original (total 100 m). -/
theorem C7_counterexample :
    (runWorld w0 [NavEvent.position pOff, NavEvent.debounceElapsed,
      NavEvent.stop, NavEvent.recalcResolved r2route]).1.s.isNavigating
      = false ∧
    (runWorld w0 [NavEvent.position pOff, NavEvent.debounceElapsed,
      NavEvent.stop, NavEvent.recalcResolved r2route]).1.s.totalDistance
      = r2route.distance ∧
    r2route.distance ≠ (stopNavigation sAfterOff).totalDistance ∧
    Effect.recalcApplied ∈ (runWorld w0 [NavEvent.position pOff,
      NavEvent.debounceElapsed, NavEvent.stop,
      NavEvent.recalcResolved r2route]).2 := by
  rw [runC7_eq]
  refine ⟨rfl, rfl, ?_, by simp⟩
  norm_num [r2route, stopNavigation, sAfterOff]

/-- Claim C7, amended: stopping navigation synchronously cancels a pending
debounce timer (a later timer event is a no-op), but it does not suppress a
route fetch already in flight — when that fetch resolves after the stop, its
route data is still applied to the discarded session state (without any
exception; the model is total). -/
theorem C7_amended (w : World) (r : RouteData) :
    ((stepWorld w NavEvent.stop).1.timerPending = false ∧
      stepWorld (stepWorld w NavEvent.stop).1 NavEvent.debounceElapsed =
        ((stepWorld w NavEvent.stop).1, [])) ∧
    (w.fetchInFlight = true →
      (stepWorld (stepWorld w NavEvent.stop).1
        (NavEvent.recalcResolved r)).1.s.totalDistance = r.distance ∧
      Effect.recalcApplied ∈ (stepWorld (stepWorld w NavEvent.stop).1
        (NavEvent.recalcResolved r)).2) := by
  have hstop : stepWorld w NavEvent.stop =
      ({ w with s := stopNavigation w.s, timerPending := false }, []) :=
    stepWorld_stop w
  constructor
  · constructor
    · rw [hstop]
    · refine stepWorld_debounce_idle _ ?_
      rw [hstop]
  · intro hf
    have hf2 : (stepWorld w NavEvent.stop).1.fetchInFlight = true := by
      rw [hstop]
      exact hf
    rw [stepWorld_resolved _ r hf2]
    exact ⟨rfl, by simp⟩

/-- Witness for the amended claim C7 at a concrete in-flight world. -/
theorem C7_amended_witness :
    (stepWorld (⟨sIdle, true, true⟩ : World) NavEvent.stop).1.timerPending
      = false ∧
    (stepWorld (stepWorld (⟨sIdle, true, true⟩ : World) NavEvent.stop).1
      (NavEvent.recalcResolved r2route)).1.s.totalDistance =
      r2route.distance := by
  have h := C7_amended ⟨sIdle, true, true⟩ r2route
  exact ⟨h.1.1, (h.2 rfl).1⟩

/-- Claim C8, counterexample. For the equator polyline `g8` and the point
`p8` lying between its first two vertices, the spec formula (length to the
minimizing segment start plus the projected offset) gives `mPerDeg * 0.0006`
(about 67 m), while the source reports the length up to the nearest VERTEX,
`mPerDeg * 0.001` (about 111 m). -/
theorem C8_counterexample :
    calculateDistanceAlongRoute p8 g8 = mPerDeg * 0.001 ∧
    (nearestPointOnPolylineSpec p8 g8).2.2 = mPerDeg * 0.0006 ∧
    mPerDeg * 0.001 ≠ mPerDeg * 0.0006 := by
  refine ⟨cdar_mid_g8, by rw [nspec_mid_g8], ?_⟩
  intro hcon
  nlinarith [mPerDeg_lb]

/-- Claim C8, amended: the distance-to-route computation does scan every
consecutive segment pair keeping the minimum segment distance (as claimed),
but the reported along-route distance is the accumulated polyline length up
to the nearest VERTEX — the first vertex minimizing the vertex distance —
with no projected offset within a segment. -/
theorem C8_amended (pos p q : ℝ × ℝ) (rest : List (ℝ × ℝ)) :
    (calculateDistanceToRoute pos (p :: q :: rest) ∈
        segmentDistances pos (p :: q :: rest) ∧
      ∀ x ∈ segmentDistances pos (p :: q :: rest),
        calculateDistanceToRoute pos (p :: q :: rest) ≤ x) ∧
    ∃ j, j < (p :: q :: rest).length ∧
      (∀ v ∈ p :: q :: rest,
        vertexDistance pos ((p :: q :: rest).getD j (0, 0)) ≤
          vertexDistance pos v) ∧
      calculateDistanceAlongRoute pos (p :: q :: rest) =
        polylineLengthUpTo (p :: q :: rest) j := by
  have hseg : segmentDistances pos (p :: q :: rest) =
      distanceToLineSegment pos.1 pos.2 p.2 p.1 q.2 q.1 ::
        segmentDistances pos (q :: rest) := rfl
  have hcdr := calculateDistanceToRoute_eq pos (p :: q :: rest)
    (distanceToLineSegment pos.1 pos.2 p.2 p.1 q.2 q.1)
    (segmentDistances pos (q :: rest)) hseg
  constructor
  · constructor
    · rw [hcdr, hseg]
      rcases foldl_min_mem (segmentDistances pos (q :: rest))
          (distanceToLineSegment pos.1 pos.2 p.2 p.1 q.2 q.1) with h | h
      · rw [h]
        exact List.mem_cons_self _ _
      · exact List.mem_cons_of_mem _ h
    · intro x hx
      rw [hseg] at hx
      rcases List.mem_cons.mp hx with h | h
      · rw [hcdr, h]
        exact foldl_min_le_init _ _
      · rw [hcdr]
        exact foldl_min_le_mem _ _ _ h
  · obtain ⟨j, hj, heq, hle⟩ := closestVertexPair_spec pos p (q :: rest)
    refine ⟨j, hj, ?_, ?_⟩
    · intro v hv
      have h1 := hle v hv
      rw [heq] at h1
      exact h1
    · unfold calculateDistanceAlongRoute
      rw [heq]

/-- Claim C9, counterexample. On the zero-length segment at longitude 1, the
point-to-segment distance from the origin is the haversine distance to the
coincident endpoint — about 111 km — not zero as the claim states. -/
theorem C9_counterexample :
    distanceToLineSegment 0 0 0 1 0 1 = mPerDeg * 1 ∧
    distanceToLineSegment 0 0 0 1 0 1 ≠ 0 := by
  have h : distanceToLineSegment 0 0 0 1 0 1 = mPerDeg * 1 := by
    rw [distanceToLineSegment_degenerate, cd_O_one]
  refine ⟨h, ?_⟩
  rw [h]
  intro hcon
  nlinarith [mPerDeg_lb]

/-- Claim C9, amended: the geometry functions handle degenerate input
without raising (all are total; the `lenSq = 0` guard avoids the division):
on a zero-length segment the result is the great-circle distance to the
coincident endpoint, which is zero exactly when the point coincides with it;
the distance between two identical points is zero. -/
theorem C9_amended :
    (∀ px py x1 y1 : ℝ, distanceToLineSegment px py x1 y1 x1 y1 =
      calculateDistance px py x1 y1) ∧
    (∀ a b : ℝ, calculateDistance a b a b = 0) ∧
    (∀ a b : ℝ, distanceToLineSegment a b a b a b = 0) :=
  ⟨distanceToLineSegment_degenerate, calculateDistance_self, fun a b => by
    rw [distanceToLineSegment_degenerate, calculateDistance_self]⟩

/-- Claim C10: a single processed position update changes the current step
index by at most one — the advancement branch calls `advanceToNextStep`
exactly once, and no other statement of the tick writes the index. -/
theorem C10_index_increases_at_most_one (s : NavState) :
    s.currentStepIndex ≤ (updateNavigation s).1.currentStepIndex ∧
    (updateNavigation s).1.currentStepIndex ≤ s.currentStepIndex + 1 := by
  rcases hn : s.isNavigating with _ | _
  · rw [updateNavigation_guard_off s hn]
    exact ⟨le_refl _, Nat.le_succ _⟩
  · rcases hp : s.currentPosition with _ | pos
    · rw [updateNavigation_no_pos s hp]
      exact ⟨le_refl _, Nat.le_succ _⟩
    · rcases hst : s.steps.get? s.currentStepIndex with _ | st
      · rw [updateNavigation_entry_arrival s pos hn hp hst]
        exact ⟨le_refl _, Nat.le_succ _⟩
      · rw [updateNavigation_eq s pos st hn hp hst]
        simp only []
        rw [offRouteStage_idx]
        split
        · rw [advanceToNextStep_index, ui_idx]
          exact ⟨Nat.le_succ _, le_refl _⟩
        · rw [ui_idx]
          exact ⟨le_refl _, Nat.le_succ _⟩

end

end NavCore
